import Mathlib

/-!
Verification development for the `migrate` schema toolkit: a shallow
embedding of its DDL parser (`internal/schema/parser.go`), dialect
transformer (`internal/dialect`), and structural differ (`internal/diff`),
together with theorems settling the specification claims.

Strings are modelled as `List Char`.  Go's regexp calls are modelled by a
small executable backtracking engine (`RE`, `mtch`) with leftmost-first
match semantics, which is the semantics Go's `regexp` package documents
for the patterns used here.  Go's Unicode case mapping is modelled on the
ASCII range, which covers every keyword comparison the source performs.
-/

namespace Migrate

abbrev Chars := List Char

/-- One character of cut set: the quote characters used in
`strings.Trim(x, "\"'``")` in the parser (written via code points to keep
the development plain ASCII). -/
def squote : Char := Char.ofNat 39

def dquote : Char := Char.ofNat 34

def backquote : Char := Char.ofNat 96

/-- ASCII model of Go's `unicode.ToUpper` as used for keyword matching. -/
def goUpperChar (c : Char) : Char :=
  if 'a' ≤ c ∧ c ≤ 'z' then Char.ofNat (c.toNat - 32) else c

/-- Model of `strings.ToUpper`. -/
def goUpper (s : Chars) : Chars := s.map goUpperChar

/-- RE2's `\s` class: `[\t\n\f\r ]`. -/
def isReSpace (c : Char) : Bool :=
  c = ' ' ∨ c = Char.ofNat 9 ∨ c = Char.ofNat 10 ∨ c = Char.ofNat 12 ∨ c = Char.ofNat 13

/-- Model of `unicode.IsSpace` (ASCII range plus NEL and NBSP), used by
`strings.TrimSpace` and `strings.Fields`. -/
def isUniSpace (c : Char) : Bool :=
  c = ' ' ∨ c = Char.ofNat 9 ∨ c = Char.ofNat 10 ∨ c = Char.ofNat 11 ∨
  c = Char.ofNat 12 ∨ c = Char.ofNat 13 ∨ c = Char.ofNat 133 ∨ c = Char.ofNat 160

/-- Drop trailing characters satisfying `p`. -/
def dropWhileEnd (p : Char → Bool) (s : Chars) : Chars :=
  (s.reverse.dropWhile p).reverse

/-- Model of `strings.TrimSpace`. -/
def trimSpace (s : Chars) : Chars :=
  dropWhileEnd isUniSpace (s.dropWhile isUniSpace)

/-- Model of `strings.Trim(s, cutset)`: remove leading and trailing
characters that appear in `cut`. -/
def trimChars (cut : Chars) (s : Chars) : Chars :=
  dropWhileEnd (fun c => cut.contains c) (s.dropWhile (fun c => cut.contains c))

/-- Worker for `fields`: `cur` holds the current word, reversed. -/
def fieldsAux : Chars → Chars → List Chars
  | [], cur => if cur.isEmpty then [] else [cur.reverse]
  | c :: rest, cur =>
    if isUniSpace c then
      if cur.isEmpty then fieldsAux rest [] else cur.reverse :: fieldsAux rest []
    else fieldsAux rest (c :: cur)

/-- Model of `strings.Fields`: split around runs of white space. -/
def fields (s : Chars) : List Chars := fieldsAux s []

/-- Model of `strings.Split(s, sep)` for a single-character separator. -/
def splitOnChar (sep : Char) : Chars → List Chars
  | [] => [[]]
  | c :: rest =>
    if c = sep then [] :: splitOnChar sep rest
    else
      match splitOnChar sep rest with
      | [] => [[c]]
      | piece :: more => (c :: piece) :: more

/-- Model of `strings.Contains(s, sub)` (substring occurrence). -/
def containsSub (s sub : Chars) : Bool :=
  match s with
  | [] => sub.isEmpty
  | _ :: rest => sub.isPrefixOf s || containsSub rest sub

/-- Model of `strings.HasPrefix`. -/
def startsWith (s pre : Chars) : Bool := pre.isPrefixOf s

/-- Number of occurrences of a character. -/
def countChar (c : Char) (s : Chars) : Nat := (s.filter (fun d => d = c)).length

/-- Index of the first occurrence of `c` (model of `strings.Index` for a
one-character needle), `none` when absent. -/
def idxOfChar (c : Char) : Chars → Option Nat
  | [] => none
  | d :: rest =>
    if d = c then some 0 else (idxOfChar c rest).map (· + 1)

/-- Index of the last occurrence of `c` (model of `strings.LastIndex`). -/
def lastIdxOfChar (c : Char) (s : Chars) : Option Nat :=
  (idxOfChar c s.reverse).map (fun i => s.length - 1 - i)

/-!
## A small regular-expression engine

Just enough to embed the patterns used by the Go source.  Repetition is
only ever applied to single-character classes there, so the AST restricts
`+` and `*` to character predicates; this makes every operation a simple
structural recursion that the kernel can evaluate.  `mtch` enumerates the
ways a pattern can match a prefix of the input in the backtracking
(leftmost-first) preference order that Go's `regexp` package uses for
submatches.
-/

inductive RE where
  /-- one character of a class -/
  | cls (p : Char → Bool)
  /-- empty pattern -/
  | eps
  | seq (a b : RE)
  | alt (a b : RE)
  /-- greedy `?` -/
  | opt (a : RE)
  /-- greedy `+` over a class -/
  | plusG (p : Char → Bool)
  /-- lazy `+?` over a class -/
  | plusL (p : Char → Bool)
  /-- greedy `*` over a class -/
  | starG (p : Char → Bool)
  /-- lazy `*?` over a class -/
  | starL (p : Char → Bool)
  /-- numbered capture group -/
  | grp (n : Nat) (a : RE)
  /-- `$` end-of-text anchor -/
  | eos

/-- Capture environment: group number to captured text, most recent first. -/
abbrev Caps := List (Nat × Chars)

/-- Length of the maximal prefix satisfying `p`. -/
def runLen (p : Char → Bool) : Chars → Nat
  | [] => 0
  | c :: rest => if p c then runLen p rest + 1 else 0

/-- `n, n-1, …, lo` (empty when `n < lo`). -/
def natsDown (n lo : Nat) : List Nat :=
  (List.range (n + 1 - lo)).map (fun i => n - i)

/-- `lo, lo+1, …, n` (empty when `n < lo`). -/
def natsUp (lo n : Nat) : List Nat := (natsDown n lo).reverse

/-- All ways `re` can match a prefix of `s`, in backtracking preference
order; each outcome is the capture environment and the remaining suffix. -/
def mtch : RE → Chars → Caps → List (Caps × Chars)
  | .cls p, s, cp =>
    match s with
    | [] => []
    | c :: rest => if p c then [(cp, rest)] else []
  | .eps, s, cp => [(cp, s)]
  | .seq a b, s, cp => (mtch a s cp).flatMap (fun pr => mtch b pr.2 pr.1)
  | .alt a b, s, cp => mtch a s cp ++ mtch b s cp
  | .opt a, s, cp => mtch a s cp ++ [(cp, s)]
  | .plusG p, s, cp => (natsDown (runLen p s) 1).map (fun i => (cp, s.drop i))
  | .plusL p, s, cp => (natsUp 1 (runLen p s)).map (fun i => (cp, s.drop i))
  | .starG p, s, cp => (natsDown (runLen p s) 0).map (fun i => (cp, s.drop i))
  | .starL p, s, cp => (natsUp 0 (runLen p s)).map (fun i => (cp, s.drop i))
  | .grp n a, s, cp =>
    (mtch a s cp).map (fun pr => ((n, s.take (s.length - pr.2.length)) :: pr.1, pr.2))
  | .eos, s, cp => if s.isEmpty then [(cp, s)] else []

/-- Result of a leftmost search: text before the match, the match itself,
its captures, and the text after it. -/
structure MatchRes where
  pre : Chars
  matched : Chars
  caps : Caps
  post : Chars
deriving Repr

/-- Leftmost match of `re` in `s` (Go `FindString…` semantics: earliest
start, then backtracking preference). -/
def findSplit (re : RE) (s : Chars) : Option MatchRes :=
  match (mtch re s []).head? with
  | some (cp, rest) =>
    some ⟨[], s.take (s.length - rest.length), cp, rest⟩
  | none =>
    match s with
    | [] => none
    | c :: t => (findSplit re t).map (fun r => ⟨c :: r.pre, r.matched, r.caps, r.post⟩)

/-- Model of `regexp.FindStringSubmatch` for a pattern with `ngroups`
capture groups: the whole match followed by each group's text (empty for a
group that did not participate), or `none` when there is no match. -/
def findSubmatch (re : RE) (ngroups : Nat) (s : Chars) : Option (List Chars) :=
  (findSplit re s).map (fun r =>
    r.matched :: (natsUp 1 ngroups).map (fun i => (r.caps.lookup i).getD []))

/-- Fuelled worker for `replaceAll`. -/
def replaceAllF (re : RE) (rep : Chars) : Nat → Chars → Chars
  | 0, s => s
  | fuel + 1, s =>
    match findSplit re s with
    | none => s
    | some r =>
      if r.matched.isEmpty then
        match r.post with
        | [] => r.pre ++ rep
        | c :: t => r.pre ++ rep ++ c :: replaceAllF re rep fuel t
      else r.pre ++ rep ++ replaceAllF re rep fuel r.post

/-- Model of `regexp.ReplaceAllString` (literal replacement; every pattern
in the source matches at least one character). -/
def replaceAll (re : RE) (rep : Chars) (s : Chars) : Chars :=
  replaceAllF re rep (s.length + 1) s

/-- A case-insensitive literal character, as under the `(?i)` flag. -/
def litI1 (c : Char) : RE := .cls (fun x => goUpperChar x = goUpperChar c)

/-- A case-insensitive literal word. -/
def litI (w : String) : RE := w.data.foldr (fun c r => .seq (litI1 c) r) .eps

/-- A case-sensitive literal character. -/
def lit1 (c : Char) : RE := .cls (fun x => x = c)

/-- RE2 `\w`: `[0-9A-Za-z_]`. -/
def isWordChar (c : Char) : Bool :=
  ('0' ≤ c ∧ c ≤ '9') ∨ ('a' ≤ c ∧ c ≤ 'z') ∨ ('A' ≤ c ∧ c ≤ 'Z') ∨ c = '_'

/-- RE2 `.` without the `s` flag: any character except newline. -/
def isNotNL (c : Char) : Bool := c ≠ Char.ofNat 10

/-- `["']?` as it appears in the source patterns. -/
def quoteOpt : RE := .opt (.cls (fun c => c = dquote ∨ c = squote))

/-- Chain several patterns in sequence. -/
def seqAll (rs : List RE) : RE := rs.foldr .seq .eps

/-!
## The schema model (`internal/schema/schema.go`)

Field names follow the Go source; `Type` is a Lean keyword, so
`Column.Type` is embedded as `DataType` and `Index.Type` as `IdxType`;
the `Schema` namespace field of Table/Index/View is embedded as
`SchemaName` to avoid clashing with the `Schema` structure.
-/

structure PrimaryKey where
  Name : Chars
  Columns : List Chars
deriving DecidableEq, Repr

structure ForeignKey where
  Name : Chars
  Columns : List Chars
  ReferencedTable : Chars
  ReferencedSchema : Chars
  ReferencedCols : List Chars
  OnDelete : Chars
  OnUpdate : Chars
deriving DecidableEq, Repr

structure Column where
  Name : Chars
  DataType : Chars
  Nullable : Bool
  Default : Option Chars
  IsPrimaryKey : Bool
  IsUnique : Bool
  IsIdentity : Bool
  Comment : Chars
deriving DecidableEq, Repr

structure Index where
  Name : Chars
  Table : Chars
  SchemaName : Chars
  Columns : List Chars
  IsUnique : Bool
  IsPrimary : Bool
  IdxType : Chars
deriving DecidableEq, Repr

structure Constraint where
  Name : Chars
  CType : Chars
  Columns : List Chars
  Expression : Chars
deriving DecidableEq, Repr

structure View where
  Name : Chars
  SchemaName : Chars
  Definition : Chars
deriving DecidableEq, Repr

structure Table where
  Name : Chars
  SchemaName : Chars
  Columns : List Column
  PrimaryKey : Option PrimaryKey
  ForeignKeys : List ForeignKey
  Indexes : List Index
  Constraints : List Constraint
deriving DecidableEq, Repr

structure Schema where
  Tables : List Table
  Indexes : List Index
  Views : List View
deriving DecidableEq, Repr

def emptySchema : Schema := ⟨[], [], []⟩

/-!
## The DDL parser (`internal/schema/parser.go`)

Each Go regular expression is transcribed into an `RE` value with the
same structure; `(?i)` literals become `litI`, `\w+` becomes
`.plusG isWordChar`, and so on.  Functions keep the source's names.
`parseCreateTable` returns `none` exactly on the one input shape where
the Go code panics (the body slice `stmt[parenStart+1:parenEnd]` with the
last `)` before the first `(`); `Parse` propagates that as `none`.  In
every other case the Go functions return a value and a nil error, so no
error channel is modelled.
-/

namespace SchemaP

def wsPlus : RE := .plusG isReSpace

def notRparen (c : Char) : Bool := c ≠ ')'

/-- Go cutset string for quote trimming. -/
def quoteCut : Chars := [dquote, squote, backquote, backquote]

/-- Regexp `(?i)CREATE\s+TABLE\s+(?:IF\s+NOT\s+EXISTS\s+)?(?:(\w+)\.)?["']?(\w+)["']?`. -/
def tableNameRe : RE := seqAll [litI "CREATE", wsPlus, litI "TABLE", wsPlus,
  .opt (seqAll [litI "IF", wsPlus, litI "NOT", wsPlus, litI "EXISTS", wsPlus]),
  .opt (.seq (.grp 1 (.plusG isWordChar)) (lit1 '.')),
  quoteOpt, .grp 2 (.plusG isWordChar), quoteOpt]

/-- Regexp `(?i)DEFAULT\s+(.+?)(?:\s+(?:NOT\s+)?NULL|\s+PRIMARY|\s+UNIQUE|\s+CHECK|\s+REFERENCES|,|$)`. -/
def defaultRe : RE := seqAll [litI "DEFAULT", wsPlus, .grp 1 (.plusL isNotNL),
  .alt (seqAll [wsPlus, .opt (seqAll [litI "NOT", wsPlus]), litI "NULL"])
   (.alt (seqAll [wsPlus, litI "PRIMARY"])
    (.alt (seqAll [wsPlus, litI "UNIQUE"])
     (.alt (seqAll [wsPlus, litI "CHECK"])
      (.alt (seqAll [wsPlus, litI "REFERENCES"])
       (.alt (lit1 ',') .eos)))))]

/-- Regexp `\(([^)]+)\)`. -/
def colsParenRe : RE := seqAll [lit1 '(', .grp 1 (.plusG notRparen), lit1 ')']

/-- Regexp `(?i)FOREIGN\s+KEY\s*\(([^)]+)\)`. -/
def localColsRe : RE := seqAll [litI "FOREIGN", wsPlus, litI "KEY", .starG isReSpace,
  lit1 '(', .grp 1 (.plusG notRparen), lit1 ')']

/-- Regexp `(?i)REFERENCES\s+(?:(\w+)\.)?["']?(\w+)["']?\s*\(([^)]+)\)`. -/
def refRe : RE := seqAll [litI "REFERENCES", wsPlus,
  .opt (.seq (.grp 1 (.plusG isWordChar)) (lit1 '.')),
  quoteOpt, .grp 2 (.plusG isWordChar), quoteOpt,
  .starG isReSpace, lit1 '(', .grp 3 (.plusG notRparen), lit1 ')']

/-- Regexp `(?i)CHECK\s*\((.+)\)`. -/
def checkRe : RE := seqAll [litI "CHECK", .starG isReSpace,
  lit1 '(', .grp 1 (.plusG isNotNL), lit1 ')']

/-- Regexp `(?i)CONSTRAINT\s+["']?(\w+)["']?`. -/
def constraintNameRe : RE := seqAll [litI "CONSTRAINT", wsPlus,
  quoteOpt, .grp 1 (.plusG isWordChar), quoteOpt]

/-- Regexp `(?i)CREATE\s+(?:UNIQUE\s+)?INDEX\s+(?:IF\s+NOT\s+EXISTS\s+)?(?:CONCURRENTLY\s+)?["']?(\w+)["']?`. -/
def indexNameRe : RE := seqAll [litI "CREATE", wsPlus,
  .opt (seqAll [litI "UNIQUE", wsPlus]), litI "INDEX", wsPlus,
  .opt (seqAll [litI "IF", wsPlus, litI "NOT", wsPlus, litI "EXISTS", wsPlus]),
  .opt (seqAll [litI "CONCURRENTLY", wsPlus]),
  quoteOpt, .grp 1 (.plusG isWordChar), quoteOpt]

/-- Regexp `(?i)ON\s+(?:(\w+)\.)?["']?(\w+)["']?`. -/
def onTableRe : RE := seqAll [litI "ON", wsPlus,
  .opt (.seq (.grp 1 (.plusG isWordChar)) (lit1 '.')),
  quoteOpt, .grp 2 (.plusG isWordChar), quoteOpt]

/-- Regexp `(?i)\s+(ASC|DESC)$`. -/
def ascDescRe : RE := seqAll [wsPlus, .grp 1 (.alt (litI "ASC") (litI "DESC")), .eos]

/-- Regexp `(?i)CREATE\s+(?:OR\s+REPLACE\s+)?VIEW\s+(?:(\w+)\.)?["']?(\w+)["']?`. -/
def viewNameRe : RE := seqAll [litI "CREATE", wsPlus,
  .opt (seqAll [litI "OR", wsPlus, litI "REPLACE", wsPlus]), litI "VIEW", wsPlus,
  .opt (.seq (.grp 1 (.plusG isWordChar)) (lit1 '.')),
  quoteOpt, .grp 2 (.plusG isWordChar), quoteOpt]

/-- Regexp `(?i)\sAS\s`. -/
def asRe : RE := seqAll [.cls isReSpace, litI1 'A', litI1 'S', .cls isReSpace]

/-- Regexp `--[^\n]*`. -/
def lineCommentRe : RE := seqAll [lit1 '-', lit1 '-', .starG isNotNL]

/-- Regexp `/\*[\s\S]*?\*/`. -/
def blockCommentRe : RE := seqAll [lit1 '/', lit1 '*', .starL (fun _ => true), lit1 '*', lit1 '/']

/-- Regexp `\s+`. -/
def wsRunRe : RE := .plusG isReSpace

/-- `normalizeSQL`: strip comments, collapse white space, trim. -/
def normalizeSQL (sql : Chars) : Chars :=
  trimSpace (replaceAll wsRunRe " ".data
    (replaceAll blockCommentRe []
      (replaceAll lineCommentRe [] sql)))

/-- One step of the `splitStatements` scanner; state is
`(statements, current, inString, stringChar)`. -/
def splitStep (st : List Chars × Chars × Bool × Char) (ch : Char) :
    List Chars × Chars × Bool × Char :=
  let (stmts, cur, inString, sc) := st
  let (inString2, sc2) :=
    if ¬ inString ∧ (ch = squote ∨ ch = dquote) then (true, ch)
    else if inString ∧ ch = sc then (false, sc)
    else (inString, sc)
  if ch = ';' ∧ ¬ inString2 then (stmts ++ [cur], [], inString2, sc2)
  else (stmts, cur ++ [ch], inString2, sc2)

/-- `splitStatements`: split on semicolons outside quoted literals. -/
def splitStatements (sql : Chars) : List Chars :=
  let (stmts, cur, _, _) := sql.foldl splitStep ([], [], false, Char.ofNat 0)
  if cur.length > 0 then stmts ++ [cur] else stmts

/-- One step of the `splitColumnDefs` scanner; state is
`(defs, current, parenDepth)`. -/
def splitDefsStep (st : List Chars × Chars × Int) (ch : Char) :
    List Chars × Chars × Int :=
  let (defs, cur, depth) := st
  if ch = '(' then (defs, cur ++ [ch], depth + 1)
  else if ch = ')' then (defs, cur ++ [ch], depth - 1)
  else if ch = ',' then
    if depth = 0 then (defs ++ [cur], [], depth) else (defs, cur ++ [ch], depth)
  else (defs, cur ++ [ch], depth)

/-- `splitColumnDefs`: split a table body on top-level commas. -/
def splitColumnDefs (body : Chars) : List Chars :=
  let (defs, cur, _) := body.foldl splitDefsStep ([], [], 0)
  if cur.length > 0 then defs ++ [cur] else defs

/-- `parseColumnDef`; `none` models the Go `nil` for a member with fewer
than two fields. -/
def parseColumnDef (defn : Chars) : Option Column :=
  let parts := fields defn
  if parts.length < 2 then none
  else
    let upper := goUpper defn
    let isPK := containsSub upper "PRIMARY KEY".data
    let nullable :=
      if isPK then false
      else if containsSub upper "NOT NULL".data then false
      else true
    let dflt := (findSubmatch defaultRe 1 defn).map (fun ms => trimSpace (ms.getD 1 []))
    some { Name := trimChars quoteCut (parts.getD 0 [])
           DataType := parts.getD 1 []
           Nullable := nullable
           Default := dflt
           IsPrimaryKey := isPK
           IsUnique := containsSub upper "UNIQUE".data
           IsIdentity := containsSub upper "SERIAL".data ||
             containsSub upper "AUTO_INCREMENT".data ||
             containsSub upper "IDENTITY".data ||
             containsSub upper "AUTOINCREMENT".data
           Comment := [] }

/-- Shared column-list extraction: split on `,`, trim quotes then spaces. -/
def parseColList (cs : Chars) : List Chars :=
  (splitOnChar ',' cs).map (fun c => trimSpace (trimChars quoteCut c))

/-- `parsePrimaryKeyConstraint` (never nil in Go). -/
def parsePrimaryKeyConstraint (defn : Chars) : PrimaryKey :=
  { Name := []
    Columns :=
      match findSubmatch colsParenRe 1 defn with
      | some ms => parseColList (ms.getD 1 [])
      | none => [] }

/-- `parseForeignKeyConstraint` (never nil in Go). -/
def parseForeignKeyConstraint (defn : Chars) : ForeignKey :=
  let cols :=
    match findSubmatch localColsRe 1 defn with
    | some ms => parseColList (ms.getD 1 [])
    | none => []
  let refs :=
    match findSubmatch refRe 3 defn with
    | some ms => (ms.getD 1 [], ms.getD 2 [], parseColList (ms.getD 3 []))
    | none => ([], [], [])
  let u := goUpper defn
  { Name := []
    Columns := cols
    ReferencedTable := refs.2.1
    ReferencedSchema := refs.1
    ReferencedCols := refs.2.2
    OnDelete :=
      if containsSub u "ON DELETE CASCADE".data then "CASCADE".data
      else if containsSub u "ON DELETE SET NULL".data then "SET NULL".data
      else []
    OnUpdate := if containsSub u "ON UPDATE CASCADE".data then "CASCADE".data else [] }

/-- `parseUniqueConstraint` (never nil in Go). -/
def parseUniqueConstraint (defn : Chars) : Constraint :=
  { Name := []
    CType := "UNIQUE".data
    Columns :=
      match findSubmatch colsParenRe 1 defn with
      | some ms => parseColList (ms.getD 1 [])
      | none => []
    Expression := [] }

/-- `parseCheckConstraint` (never nil in Go). -/
def parseCheckConstraint (defn : Chars) : Constraint :=
  { Name := []
    CType := "CHECK".data
    Columns := []
    Expression :=
      match findSubmatch checkRe 1 defn with
      | some ms => ms.getD 1 []
      | none => [] }

/-- `parseNamedConstraint`: re-dispatch a `CONSTRAINT name …` member. -/
def parseNamedConstraint (defn : Chars) (table : Table) : Table :=
  let upper := goUpper defn
  let name :=
    match findSubmatch constraintNameRe 1 defn with
    | some ms => ms.getD 1 []
    | none => []
  if containsSub upper "PRIMARY KEY".data then
    { table with PrimaryKey := some { parsePrimaryKeyConstraint defn with Name := name } }
  else if containsSub upper "FOREIGN KEY".data then
    { table with ForeignKeys :=
        table.ForeignKeys ++ [{ parseForeignKeyConstraint defn with Name := name }] }
  else if containsSub upper "UNIQUE".data then
    { table with Constraints :=
        table.Constraints ++ [{ parseUniqueConstraint defn with Name := name }] }
  else if containsSub upper "CHECK".data then
    { table with Constraints :=
        table.Constraints ++ [{ parseCheckConstraint defn with Name := name }] }
  else table

/-- The member-dispatch loop body of `parseCreateTable`. -/
def applyTableDef (t : Table) (defn0 : Chars) : Table :=
  let defn := trimSpace defn0
  if defn.isEmpty then t
  else
    let upper := goUpper defn
    if startsWith upper "PRIMARY KEY".data then
      { t with PrimaryKey := some (parsePrimaryKeyConstraint defn) }
    else if startsWith upper "FOREIGN KEY".data then
      { t with ForeignKeys := t.ForeignKeys ++ [parseForeignKeyConstraint defn] }
    else if startsWith upper "UNIQUE".data then
      { t with Constraints := t.Constraints ++ [parseUniqueConstraint defn] }
    else if startsWith upper "CHECK".data then
      { t with Constraints := t.Constraints ++ [parseCheckConstraint defn] }
    else if startsWith upper "CONSTRAINT".data then parseNamedConstraint defn t
    else
      match parseColumnDef defn with
      | some c => { t with Columns := t.Columns ++ [c] }
      | none => t

/-- `parseCreateTable`.  `none` models the Go panic on
`stmt[parenStart+1:parenEnd]` when the last `)` sits before the first
`(`; in all other cases Go returns the table and a nil error. -/
def parseCreateTable (stmt : Chars) : Option Table :=
  let names :=
    match findSubmatch tableNameRe 2 stmt with
    | some ms => (ms.getD 1 [], ms.getD 2 [])
    | none => ([], [])
  let base : Table :=
    { Name := names.2, SchemaName := names.1, Columns := [], PrimaryKey := none
      ForeignKeys := [], Indexes := [], Constraints := [] }
  match idxOfChar '(' stmt, lastIdxOfChar ')' stmt with
  | none, _ => some base
  | some _, none => some base
  | some ps, some pe =>
    if pe < ps + 1 then none
    else
      let body := (stmt.drop (ps + 1)).take (pe - (ps + 1))
      some ((splitColumnDefs body).foldl applyTableDef base)

/-- `parseCreateIndex` (always returns an index and a nil error). -/
def parseCreateIndex (stmt : Chars) : Index :=
  let upper := goUpper stmt
  let name :=
    match findSubmatch indexNameRe 1 stmt with
    | some ms => ms.getD 1 []
    | none => []
  let target :=
    match findSubmatch onTableRe 2 stmt with
    | some ms => (ms.getD 1 [], ms.getD 2 [])
    | none => ([], [])
  let cols :=
    match findSubmatch colsParenRe 1 stmt with
    | some ms =>
      (splitOnChar ',' (ms.getD 1 [])).map
        (fun c => trimChars quoteCut (replaceAll ascDescRe [] (trimSpace c)))
    | none => []
  { Name := name, Table := target.2, SchemaName := target.1, Columns := cols
    IsUnique := containsSub upper "UNIQUE".data, IsPrimary := false, IdxType := [] }

/-- `parseCreateView` (always returns a view and a nil error). -/
def parseCreateView (stmt : Chars) : View :=
  let names :=
    match findSubmatch viewNameRe 2 stmt with
    | some ms => (ms.getD 1 [], ms.getD 2 [])
    | none => ([], [])
  let defn :=
    match findSplit asRe stmt with
    | some r => trimSpace r.post
    | none => []
  { Name := names.2, SchemaName := names.1, Definition := defn }

/-- The per-statement dispatch of `Parser.Parse`. -/
def parseStep (acc : Schema) (stmt0 : Chars) : Option Schema :=
  let stmt := trimSpace stmt0
  if stmt.isEmpty then some acc
  else
    let upper := goUpper stmt
    if startsWith upper "CREATE TABLE".data then
      (parseCreateTable stmt).map (fun t => { acc with Tables := acc.Tables ++ [t] })
    else if startsWith upper "CREATE INDEX".data ||
        startsWith upper "CREATE UNIQUE INDEX".data then
      some { acc with Indexes := acc.Indexes ++ [parseCreateIndex stmt] }
    else if startsWith upper "CREATE VIEW".data ||
        startsWith upper "CREATE OR REPLACE VIEW".data then
      some { acc with Views := acc.Views ++ [parseCreateView stmt] }
    else some acc

/-- Fold `parseStep` over the statements; `none` propagates the panic. -/
def parseAll : List Chars → Schema → Option Schema
  | [], acc => some acc
  | s :: rest, acc => (parseStep acc s).bind (parseAll rest)

/-- `Parser.Parse`: `some sch` models the Go return `(sch, nil)`; `none`
models the one reachable panic. -/
def Parse (sql : Chars) : Option Schema :=
  parseAll (splitStatements (normalizeSQL sql)) emptySchema

end SchemaP

/-!
## The dialect transformer (`internal/dialect`, file `transform.go`)

The Go `Transformer` carries the `from`/`to` dialect names; the embedding
passes them as explicit arguments (named `fr`/`tgt`, since `to` is a Lean
keyword) to the functions that use them.  Function names follow the
source.
-/

namespace DialectP

/-- A case-sensitive literal word. -/
def lit (w : String) : RE := w.data.foldr (fun c r => .seq (lit1 c) r) .eps

def isDigit (c : Char) : Bool := '0' ≤ c ∧ c ≤ '9'

/-- Regexp `\((\d+|MAX)\)` used for VARCHAR length extraction. -/
def varcharLenRe : RE :=
  seqAll [lit1 '(', .grp 1 (.alt (.plusG isDigit) (lit "MAX")), lit1 ')']

/-- Text before and after the first occurrence of `pat` in `s`. -/
def splitFirstSub : Chars → Chars → Option (Chars × Chars)
  | s, pat =>
    if pat.isPrefixOf s then some ([], s.drop pat.length)
    else
      match s with
      | [] => none
      | c :: t => (splitFirstSub t pat).map (fun pr => (c :: pr.1, pr.2))

/-- `strings.Replace(s, pat, rep, 1)`: replace the first occurrence. -/
def replaceOnceSub (s pat rep : Chars) : Chars :=
  match splitFirstSub s pat with
  | some pr => pr.1 ++ rep ++ pr.2
  | none => s

/-- `Transformer.normalizeType`: dialect type token (already upper-cased
by the caller) to canonical intermediate type. -/
def normalizeType (dataType : Chars) : Chars :=
  if dataType = "INT".data ∨ dataType = "INTEGER".data then "INTEGER".data
  else if dataType = "BIGINT".data then "BIGINT".data
  else if dataType = "SMALLINT".data ∨ dataType = "TINYINT".data then "SMALLINT".data
  else if dataType = "BOOLEAN".data ∨ dataType = "BOOL".data ∨ dataType = "BIT".data ∨
      dataType = "TINYINT(1)".data then "BOOLEAN".data
  else if startsWith dataType "VARCHAR".data ∨ startsWith dataType "NVARCHAR".data ∨
      startsWith dataType "CHARACTER VARYING".data then
    match findSubmatch varcharLenRe 1 dataType with
    | some ms =>
      if ms.getD 1 [] = "MAX".data then "TEXT".data
      else "VARCHAR(".data ++ ms.getD 1 [] ++ ")".data
    | none => "VARCHAR(255)".data
  else if dataType = "TEXT".data ∨ dataType = "LONGTEXT".data ∨
      dataType = "MEDIUMTEXT".data ∨ dataType = "NVARCHAR(MAX)".data ∨
      dataType = "NTEXT".data then "TEXT".data
  else if dataType = "CHAR".data ∨ startsWith dataType "CHAR(".data ∨
      startsWith dataType "NCHAR".data then dataType
  else if dataType = "TIMESTAMP".data ∨ dataType = "TIMESTAMP WITHOUT TIME ZONE".data ∨
      dataType = "DATETIME".data ∨ dataType = "DATETIME2".data then "TIMESTAMP".data
  else if dataType = "TIMESTAMP WITH TIME ZONE".data ∨ dataType = "TIMESTAMPTZ".data ∨
      dataType = "DATETIMEOFFSET".data then "TIMESTAMP_TZ".data
  else if dataType = "DATE".data then "DATE".data
  else if dataType = "TIME".data ∨ dataType = "TIME WITHOUT TIME ZONE".data then "TIME".data
  else if startsWith dataType "DECIMAL".data ∨ startsWith dataType "NUMERIC".data then dataType
  else if dataType = "FLOAT".data ∨ dataType = "REAL".data then "REAL".data
  else if dataType = "DOUBLE".data ∨ dataType = "DOUBLE PRECISION".data then "DOUBLE".data
  else if dataType = "BYTEA".data ∨ dataType = "BLOB".data ∨ dataType = "LONGBLOB".data ∨
      dataType = "VARBINARY(MAX)".data ∨ dataType = "IMAGE".data then "BINARY".data
  else if dataType = "JSON".data ∨ dataType = "JSONB".data then "JSON".data
  else if dataType = "UUID".data ∨ dataType = "UNIQUEIDENTIFIER".data then "UUID".data
  else dataType

/-- `Transformer.mapIdentityType`. -/
def mapIdentityType (tgt dataType : Chars) : Chars :=
  let isBig := containsSub dataType "BIG".data
  if tgt = "postgres".data then
    if isBig then "BIGSERIAL".data else "SERIAL".data
  else if tgt = "mysql".data then
    if isBig then "BIGINT AUTO_INCREMENT".data else "INT AUTO_INCREMENT".data
  else if tgt = "sqlserver".data then
    if isBig then "BIGINT IDENTITY(1,1)".data else "INT IDENTITY(1,1)".data
  else dataType

/-- `Transformer.toPostgres`. -/
def toPostgres (normalized : Chars) : Chars :=
  if normalized = "BOOLEAN".data then "BOOLEAN".data
  else if normalized = "TIMESTAMP".data then "TIMESTAMP".data
  else if normalized = "TIMESTAMP_TZ".data then "TIMESTAMP WITH TIME ZONE".data
  else if normalized = "BINARY".data then "BYTEA".data
  else if normalized = "JSON".data then "JSONB".data
  else if normalized = "UUID".data then "UUID".data
  else if normalized = "DOUBLE".data then "DOUBLE PRECISION".data
  else normalized

/-- `Transformer.toMySQL`. -/
def toMySQL (normalized : Chars) : Chars :=
  if normalized = "BOOLEAN".data then "TINYINT(1)".data
  else if normalized = "TIMESTAMP".data then "DATETIME".data
  else if normalized = "TIMESTAMP_TZ".data then "DATETIME".data
  else if normalized = "BINARY".data then "LONGBLOB".data
  else if normalized = "JSON".data then "JSON".data
  else if normalized = "UUID".data then "CHAR(36)".data
  else if normalized = "DOUBLE".data then "DOUBLE".data
  else if normalized = "TEXT".data then "LONGTEXT".data
  else normalized

/-- `Transformer.toSQLServer`. -/
def toSQLServer (normalized : Chars) : Chars :=
  if normalized = "BOOLEAN".data then "BIT".data
  else if normalized = "TIMESTAMP".data then "DATETIME2".data
  else if normalized = "TIMESTAMP_TZ".data then "DATETIMEOFFSET".data
  else if normalized = "BINARY".data then "VARBINARY(MAX)".data
  else if normalized = "JSON".data then "NVARCHAR(MAX)".data
  else if normalized = "UUID".data then "UNIQUEIDENTIFIER".data
  else if normalized = "DOUBLE".data then "FLOAT".data
  else if normalized = "TEXT".data then "NVARCHAR(MAX)".data
  else if normalized = "INTEGER".data then "INT".data
  else if startsWith normalized "VARCHAR".data then
    replaceOnceSub normalized "VARCHAR".data "NVARCHAR".data
  else normalized

/-- `Transformer.toTargetType`: the default branch passes the normalized
type through for any unrecognized target dialect. -/
def toTargetType (tgt normalized : Chars) : Chars :=
  if tgt = "postgres".data then toPostgres normalized
  else if tgt = "mysql".data then toMySQL normalized
  else if tgt = "sqlserver".data then toSQLServer normalized
  else normalized

/-- `Transformer.mapDataType`. -/
def mapDataType (tgt dataType : Chars) : Chars :=
  toTargetType tgt (normalizeType dataType)

/-- `Transformer.checkDataLoss` (the `mapped` argument is present but
unused in the source as well). -/
def checkDataLoss (tgt original _mapped tableName colName : Chars) : Chars :=
  if (original = "JSONB".data ∨ original = "JSON".data) ∧ tgt = "sqlserver".data then
    tableName ++ ".".data ++ colName ++
      ": JSON stored as NVARCHAR(MAX) - JSON functions available but no native type".data
  else if (original = "UUID".data ∨ original = "UNIQUEIDENTIFIER".data) ∧ tgt = "mysql".data then
    tableName ++ ".".data ++ colName ++
      ": UUID stored as CHAR(36) - no native UUID type in MySQL".data
  else if startsWith original "TIMESTAMP".data ∧ containsSub original "TIME ZONE".data ∧
      tgt = "mysql".data then
    tableName ++ ".".data ++ colName ++
      ": Timezone information will be lost - MySQL DATETIME has no timezone".data
  else if original = "DOUBLE PRECISION".data ∧ tgt = "sqlserver".data then
    tableName ++ ".".data ++ colName ++
      ": DOUBLE PRECISION mapped to FLOAT - verify precision requirements".data
  else []

/-- `Transformer.transformType`. -/
def transformType (tgt dataType : Chars) (isIdentity : Bool) (tableName colName : Chars) :
    Chars × List Chars :=
  let upper := goUpper dataType
  if isIdentity then (mapIdentityType tgt upper, [])
  else
    let mapped := mapDataType tgt upper
    let w := checkDataLoss tgt upper mapped tableName colName
    (mapped, if w.isEmpty then [] else [w])

/-- `Transformer.transformDefault` (the Go version writes through a
`result` string that stays empty for an unrecognized target dialect). -/
def transformDefault (tgt defaultVal : Chars) : Chars :=
  let upper := goUpper defaultVal
  if upper = "NOW()".data ∨ upper = "CURRENT_TIMESTAMP".data ∨
      upper = "GETDATE()".data ∨ upper = "GETUTCDATE()".data then
    if tgt = "postgres".data then "NOW()".data
    else if tgt = "mysql".data then "CURRENT_TIMESTAMP".data
    else if tgt = "sqlserver".data then "GETDATE()".data
    else []
  else if upper = "TRUE".data ∨ upper = "FALSE".data then
    if tgt = "mysql".data then (if upper = "TRUE".data then "1".data else "0".data)
    else if tgt = "sqlserver".data then (if upper = "TRUE".data then "1".data else "0".data)
    else defaultVal
  else if upper = "GEN_RANDOM_UUID()".data ∨ upper = "UUID()".data ∨
      upper = "NEWID()".data then
    if tgt = "postgres".data then "gen_random_uuid()".data
    else if tgt = "mysql".data then "UUID()".data
    else if tgt = "sqlserver".data then "NEWID()".data
    else []
  else defaultVal

/-- `Transformer.transformColumn`. -/
def transformColumn (tgt : Chars) (col : Column) (tableName : Chars) :
    Column × List Chars :=
  let tw := transformType tgt col.DataType col.IsIdentity tableName col.Name
  ({ Name := col.Name
     DataType := tw.1
     Nullable := col.Nullable
     Default := col.Default.map (transformDefault tgt)
     IsPrimaryKey := col.IsPrimaryKey
     IsUnique := col.IsUnique
     IsIdentity := col.IsIdentity
     Comment := col.Comment }, tw.2)

/-- `Transformer.mapIndexType`. -/
def mapIndexType (tgt indexType : Chars) : Chars :=
  if indexType = [] then []
  else
    let upper := goUpper indexType
    if tgt = "mysql".data then
      if upper = "GIN".data ∨ upper = "GIST".data ∨ upper = "BRIN".data then "BTREE".data
      else upper
    else if tgt = "sqlserver".data then
      if upper = "GIN".data ∨ upper = "GIST".data ∨ upper = "BRIN".data ∨
          upper = "HASH".data then []
      else []
    else indexType

/-- `Transformer.transformIndex`. -/
def transformIndex (tgt : Chars) (idx : Index) : Index :=
  { Name := idx.Name
    Table := idx.Table
    SchemaName := idx.SchemaName
    Columns := idx.Columns
    IsUnique := idx.IsUnique
    IsPrimary := idx.IsPrimary
    IdxType := mapIndexType tgt idx.IdxType }

/-- `Transformer.transformTable`. -/
def transformTable (tgt : Chars) (table : Table) : Table × List Chars :=
  let colResults := table.Columns.map (fun c => transformColumn tgt c table.Name)
  ({ Name := table.Name
     SchemaName := table.SchemaName
     Columns := colResults.map Prod.fst
     PrimaryKey := table.PrimaryKey
     ForeignKeys := table.ForeignKeys
     Indexes := table.Indexes.map (transformIndex tgt)
     Constraints := table.Constraints },
   (colResults.map Prod.snd).flatten)

/-- `Transformer.transformView`. -/
def transformView (fr tgt : Chars) (view : View) : View × List Chars :=
  ({ Name := view.Name, SchemaName := view.SchemaName, Definition := view.Definition },
   if fr ≠ tgt then
     ["View ".data ++ [squote] ++ view.Name ++ [squote] ++
       " may contain ".data ++ fr ++ "-specific SQL that requires manual review".data]
   else [])

/-- `Transformer.Transform`: never fails; returns the transformed schema
and the concatenated warnings (tables first, then views). -/
def Transform (fr tgt : Chars) (s : Schema) : Schema × List Chars :=
  let tableResults := s.Tables.map (transformTable tgt)
  let viewResults := s.Views.map (transformView fr tgt)
  ({ Tables := tableResults.map Prod.fst
     Indexes := s.Indexes.map (transformIndex tgt)
     Views := viewResults.map Prod.fst },
   (tableResults.map Prod.snd).flatten ++ (viewResults.map Prod.snd).flatten)

/-- `SupportedDialects`. -/
def SupportedDialects : List Chars := ["postgres".data, "mysql".data, "sqlserver".data]

/-- `IsSupported`. -/
def IsSupported (d : Chars) : Bool := SupportedDialects.any (fun x => x = d)

end DialectP

/-!
## The structural differ (`internal/diff`)

Go's maps are embedded as association lists with insert-or-replace
semantics (`buildMap`), which matches Go map contents exactly; iteration
order over a Go map is unspecified, and the embedding iterates entries in
first-insertion order.  Every claim proved below about the differ is
insensitive to that order.
-/

namespace DiffP

structure ColumnChanges where
  Name : Chars
  OldType : Chars
  NewType : Chars
  NullableChanged : Bool
  OldNullable : Bool
  NewNullable : Bool
  DefaultChanged : Bool
  OldDefault : Option Chars
  NewDefault : Option Chars
deriving DecidableEq, Repr

structure ViewChanges where
  Name : Chars
  OldDefinition : Chars
  NewDefinition : Chars
deriving DecidableEq, Repr

structure TableChanges where
  Name : Chars
  AddedColumns : List Column
  RemovedColumns : List Column
  ModifiedColumns : List ColumnChanges
  AddedIndexes : List Index
  RemovedIndexes : List Index
  AddedForeignKeys : List ForeignKey
  RemovedForeignKeys : List ForeignKey
  AddedConstraints : List Constraint
  RemovedConstraints : List Constraint
  PrimaryKeyChanged : Bool
deriving DecidableEq, Repr

structure Changes where
  AddedTables : List Table
  RemovedTables : List Table
  ModifiedTables : List TableChanges
  AddedIndexes : List Index
  RemovedIndexes : List Index
  AddedViews : List View
  RemovedViews : List View
  ModifiedViews : List ViewChanges
deriving DecidableEq, Repr

/-- `Changes.IsEmpty`. -/
def Changes.IsEmpty (c : Changes) : Bool :=
  c.AddedTables.isEmpty && c.RemovedTables.isEmpty && c.ModifiedTables.isEmpty &&
  c.AddedIndexes.isEmpty && c.RemovedIndexes.isEmpty &&
  c.AddedViews.isEmpty && c.RemovedViews.isEmpty && c.ModifiedViews.isEmpty

/-- Lookup in an association list (Go map read). -/
def mlookup (k : Chars) : List (Chars × α) → Option α
  | [] => none
  | kv :: rest => if kv.1 = k then some kv.2 else mlookup k rest

/-- Go map write `m[k] = v`: replace the entry if the key exists,
otherwise append. -/
def mapInsert (l : List (Chars × α)) (k : Chars) (v : α) : List (Chars × α) :=
  if (mlookup k l).isSome then l.map (fun kv => if kv.1 = k then (k, v) else kv)
  else l ++ [(k, v)]

/-- Build a Go map keyed by `key` from a slice (later entries override). -/
def buildMap (key : α → Chars) (xs : List α) : List (Chars × α) :=
  xs.foldl (fun acc x => mapInsert acc (key x) x) []

/-- Entries of the target map whose key is absent from the source map
(the `added` loops of the Go differ). -/
def addedOf (sourceM targetM : List (Chars × α)) : List α :=
  targetM.filterMap (fun kv =>
    if (mlookup kv.1 sourceM).isSome then none else some kv.2)

/-- The `removed` loops: symmetric to `addedOf`. -/
def removedOf (sourceM targetM : List (Chars × α)) : List α :=
  addedOf targetM sourceM

/-- Model of `strings.EqualFold` (ASCII simple case folding). -/
def equalFold (a b : Chars) : Bool := decide (goUpper a = goUpper b)

/-- `sameDefault`. -/
def sameDefault : Option Chars → Option Chars → Bool
  | none, none => true
  | some _, none => false
  | none, some _ => false
  | some a, some b => equalFold a b

/-- `Differ.samePrimaryKey`: the Go length check plus element-wise
comparison is exactly list equality of the column lists. -/
def samePrimaryKey : Option PrimaryKey → Option PrimaryKey → Bool
  | none, none => true
  | some _, none => false
  | none, some _ => false
  | some a, some b => decide (a.Columns = b.Columns)

/-- `Differ.compareColumn`; unset fields keep their Go zero values. -/
def compareColumn (source target : Column) : Option ColumnChanges :=
  let typeChanged : Bool := ! equalFold source.DataType target.DataType
  let nullableChanged : Bool := decide (source.Nullable ≠ target.Nullable)
  let defaultChanged : Bool := ! sameDefault source.Default target.Default
  if typeChanged || nullableChanged || defaultChanged then
    some { Name := source.Name
           OldType := if typeChanged then source.DataType else []
           NewType := if typeChanged then target.DataType else []
           NullableChanged := nullableChanged
           OldNullable := if nullableChanged then source.Nullable else false
           NewNullable := if nullableChanged then target.Nullable else false
           DefaultChanged := defaultChanged
           OldDefault := if defaultChanged then source.Default else none
           NewDefault := if defaultChanged then target.Default else none }
  else none

/-- Key under which a foreign key is filed: its name, or the synthesized
`<cols-joined-by-_>_fk`. -/
def fkKey (fk : ForeignKey) : Chars :=
  if fk.Name = [] then (List.intercalate "_".data fk.Columns) ++ "_fk".data
  else fk.Name

/-- `Differ.compareTable`: `none` models the Go `nil` (no changes). -/
def compareTable (source target : Table) : Option TableChanges :=
  let sCol := buildMap Column.Name source.Columns
  let tCol := buildMap Column.Name target.Columns
  let addedColumns := addedOf sCol tCol
  let removedColumns := removedOf sCol tCol
  let modifiedColumns := sCol.filterMap (fun kv =>
    (mlookup kv.1 tCol).bind (fun tc => compareColumn kv.2 tc))
  let sIdx := buildMap Index.Name source.Indexes
  let tIdx := buildMap Index.Name target.Indexes
  let addedIndexes := addedOf sIdx tIdx
  let removedIndexes := removedOf sIdx tIdx
  let sFK := buildMap fkKey source.ForeignKeys
  let tFK := buildMap fkKey target.ForeignKeys
  let addedFKs := addedOf sFK tFK
  let removedFKs := removedOf sFK tFK
  let pkChanged : Bool := ! samePrimaryKey source.PrimaryKey target.PrimaryKey
  let hasChanges : Bool :=
    ! addedColumns.isEmpty || ! removedColumns.isEmpty || ! modifiedColumns.isEmpty ||
    ! addedIndexes.isEmpty || ! removedIndexes.isEmpty ||
    ! addedFKs.isEmpty || ! removedFKs.isEmpty || pkChanged
  if hasChanges then
    some { Name := source.Name
           AddedColumns := addedColumns
           RemovedColumns := removedColumns
           ModifiedColumns := modifiedColumns
           AddedIndexes := addedIndexes
           RemovedIndexes := removedIndexes
           AddedForeignKeys := addedFKs
           RemovedForeignKeys := removedFKs
           AddedConstraints := []
           RemovedConstraints := []
           PrimaryKeyChanged := pkChanged }
  else none

/-- The differ's own `normalizeSQL` (white-space collapsing plus
upper-casing), used only for view-definition comparison. -/
def normalizeSQL (sql : Chars) : Chars :=
  goUpper (List.intercalate " ".data (fields (trimSpace sql)))

/-- `Differ.Compare` assembled from the three comparison passes. -/
def Compare (source target : Schema) : Changes :=
  let sT := buildMap Table.Name source.Tables
  let tT := buildMap Table.Name target.Tables
  let sI := buildMap Index.Name source.Indexes
  let tI := buildMap Index.Name target.Indexes
  let sV := buildMap View.Name source.Views
  let tV := buildMap View.Name target.Views
  { AddedTables := addedOf sT tT
    RemovedTables := removedOf sT tT
    ModifiedTables := sT.filterMap (fun kv =>
      (mlookup kv.1 tT).bind (fun tt => compareTable kv.2 tt))
    AddedIndexes := addedOf sI tI
    RemovedIndexes := removedOf sI tI
    AddedViews := addedOf sV tV
    RemovedViews := removedOf sV tV
    ModifiedViews := sV.filterMap (fun kv =>
      (mlookup kv.1 tV).bind (fun tv =>
        if normalizeSQL kv.2.Definition ≠ normalizeSQL tv.Definition then
          some { Name := kv.1
                 OldDefinition := kv.2.Definition
                 NewDefinition := tv.Definition }
        else none)) }

end DiffP

/-!
### Concrete inputs and expected values used by the claim theorems

The expected schemas below are hand-translations of what the Go parser and
transformer produce on each input; every equation relating them to the
functions above is discharged by `decide`, i.e. checked by evaluation.
-/

def c1ctInput : Chars := "CREATE TABLE users".data

def c1ctSchema : Schema :=
  { Tables := [{ Name := "users".data, SchemaName := [], Columns := [],
                 PrimaryKey := none, ForeignKeys := [], Indexes := [], Constraints := [] }],
    Indexes := [], Views := [] }

def colAInt : Column :=
  { Name := "a".data, DataType := "INT".data, Nullable := true, Default := none,
    IsPrimaryKey := false, IsUnique := false, IsIdentity := false, Comment := [] }

def c1okInput : Chars := "CREATE TABLE t (a INT)".data

def c1okSchema : Schema :=
  { Tables := [{ Name := "t".data, SchemaName := [], Columns := [colAInt],
                 PrimaryKey := none, ForeignKeys := [], Indexes := [], Constraints := [] }],
    Indexes := [], Views := [] }

def c2badSchema : Schema :=
  { Tables := [{ Name := "t".data, SchemaName := [],
                 Columns := [{ Name := "u".data, DataType := "UUID".data, Nullable := true,
                               Default := none, IsPrimaryKey := false, IsUnique := false,
                               IsIdentity := false, Comment := [] }],
                 PrimaryKey := none, ForeignKeys := [], Indexes := [], Constraints := [] }],
    Indexes := [], Views := [] }

def c2goodSchema : Schema :=
  { Tables := [{ Name := "t".data, SchemaName := [],
                 Columns := [{ Name := "n".data, DataType := "TEXT".data, Nullable := true,
                               Default := some "NOW()".data, IsPrimaryKey := false,
                               IsUnique := false, IsIdentity := false, Comment := [] }],
                 PrimaryKey := none, ForeignKeys := [],
                 Indexes := [{ Name := "i".data, Table := "t".data, SchemaName := [],
                               Columns := ["n".data], IsUnique := false, IsPrimary := false,
                               IdxType := [] }],
                 Constraints := [] }],
    Indexes := [{ Name := "j".data, Table := "t".data, SchemaName := [],
                  Columns := ["n".data], IsUnique := false, IsPrimary := false,
                  IdxType := [] }],
    Views := [{ Name := "v".data, SchemaName := [], Definition := "SELECT 1".data }] }

def c3schema : Schema :=
  { Tables := [{ Name := "t".data, SchemaName := [],
                 Columns := [{ Name := "n".data, DataType := "INT".data, Nullable := true,
                               Default := none, IsPrimaryKey := false, IsUnique := false,
                               IsIdentity := false, Comment := [] }],
                 PrimaryKey := none, ForeignKeys := [], Indexes := [], Constraints := [] }],
    Indexes := [], Views := [] }

/-- What `Transform` actually produces for `c3schema` with the unknown
target dialect `oracle`: the `INT` column passed through in normalized
spelling, no error, no warning. -/
def c3outSchema : Schema :=
  { Tables := [{ Name := "t".data, SchemaName := [],
                 Columns := [{ Name := "n".data, DataType := "INTEGER".data, Nullable := true,
                               Default := none, IsPrimaryKey := false, IsUnique := false,
                               IsIdentity := false, Comment := [] }],
                 PrimaryKey := none, ForeignKeys := [], Indexes := [], Constraints := [] }],
    Indexes := [], Views := [] }

def c5input : Chars :=
  "CREATE TABLE users (id SERIAL PRIMARY KEY, email VARCHAR(255) NOT NULL UNIQUE)".data

def c5schema : Schema :=
  { Tables := [{ Name := "users".data, SchemaName := []
                 Columns :=
                   [{ Name := "id".data, DataType := "SERIAL".data, Nullable := false,
                      Default := none, IsPrimaryKey := true, IsUnique := false,
                      IsIdentity := true, Comment := [] },
                    { Name := "email".data, DataType := "VARCHAR(255)".data, Nullable := false,
                      Default := none, IsPrimaryKey := false, IsUnique := true,
                      IsIdentity := false, Comment := [] }]
                 PrimaryKey := none, ForeignKeys := [], Indexes := [], Constraints := [] }],
    Indexes := [], Views := [] }

/-- Extracts the `PrimaryKey` field of the first parsed table. -/
def firstTablePK (r : Option Schema) : Option (Option PrimaryKey) :=
  r.bind (fun sch => sch.Tables.head?.map Table.PrimaryKey)

def c6input : Chars := "CREATE TABLE t (id INT, PRIMARY KEY (id))".data

def c6col : Column :=
  { Name := "id".data, DataType := "INT".data, Nullable := true, Default := none,
    IsPrimaryKey := false, IsUnique := false, IsIdentity := false, Comment := [] }

def c6pk : PrimaryKey := { Name := [], Columns := ["id".data] }

def c6table : Table :=
  { Name := "t".data, SchemaName := [], Columns := [c6col], PrimaryKey := some c6pk,
    ForeignKeys := [], Indexes := [], Constraints := [] }

def c6schema : Schema := { Tables := [c6table], Indexes := [], Views := [] }

def c6witnessInput : Chars := "id INT NOT NULL".data

/-- What `parseColumnDef` produces on `c6witnessInput`. -/
def c6witnessCol : Column :=
  { Name := "id".data, DataType := "INT".data, Nullable := false, Default := none,
    IsPrimaryKey := false, IsUnique := false, IsIdentity := false, Comment := [] }

def c8input : Chars := "CREATE TABLE t (a INT, FOREIGN KEY (a))".data

/-- The foreign key the parser produces for the REFERENCES-less member:
one local column, no referenced columns. -/
def c8fk : ForeignKey :=
  { Name := [], Columns := ["a".data], ReferencedTable := [], ReferencedSchema := [],
    ReferencedCols := [], OnDelete := [], OnUpdate := [] }

def c8table : Table :=
  { Name := "t".data, SchemaName := [], Columns := [colAInt], PrimaryKey := none,
    ForeignKeys := [c8fk], Indexes := [], Constraints := [] }

def c8schema : Schema := { Tables := [c8table], Indexes := [], Views := [] }

namespace SchemaP

/-- The dispatch condition for `CREATE TABLE` statements. -/
def isCreateTableStmt (stmt : Chars) : Bool :=
  startsWith (goUpper (trimSpace stmt)) "CREATE TABLE".data

/-- The dispatch condition for `CREATE [UNIQUE] INDEX` statements. -/
def isCreateIndexStmt (stmt : Chars) : Bool :=
  startsWith (goUpper (trimSpace stmt)) "CREATE INDEX".data ||
  startsWith (goUpper (trimSpace stmt)) "CREATE UNIQUE INDEX".data

/-- The dispatch condition for `CREATE [OR REPLACE] VIEW` statements. -/
def isCreateViewStmt (stmt : Chars) : Bool :=
  startsWith (goUpper (trimSpace stmt)) "CREATE VIEW".data ||
  startsWith (goUpper (trimSpace stmt)) "CREATE OR REPLACE VIEW".data

/-- The paren configuration on which `parseCreateTable`'s body slice
panics in Go: both parens present but the last `)` before the first `(`. -/
def tableParenPanic (stmt : Chars) : Bool :=
  match idxOfChar '(' stmt, lastIdxOfChar ')' stmt with
  | some ps, some pe => decide (pe < ps + 1)
  | _, _ => false

/-- A statement on which `parseStep` cannot hit the Go slice panic. -/
def stmtSafe (stmt : Chars) : Bool :=
  !(isCreateTableStmt stmt && tableParenPanic (trimSpace stmt))

end SchemaP

namespace DialectP

/-- The column fields `Transform` must preserve (everything but the type
and the default expression). -/
def colFrame (c c2 : Column) : Prop :=
  c2.Name = c.Name ∧ c2.Nullable = c.Nullable ∧ c2.IsPrimaryKey = c.IsPrimaryKey ∧
  c2.IsUnique = c.IsUnique ∧ c2.IsIdentity = c.IsIdentity ∧ c2.Comment = c.Comment

/-- The index fields `Transform` must preserve (everything but the index
method). -/
def idxFrame (i i2 : Index) : Prop :=
  i2.Name = i.Name ∧ i2.Table = i.Table ∧ i2.SchemaName = i.SchemaName ∧
  i2.Columns = i.Columns ∧ i2.IsUnique = i.IsUnique ∧ i2.IsPrimary = i.IsPrimary

/-- The table fields `Transform` must preserve: name, namespace, primary
key, foreign keys, constraints, and the shape and frame fields of the
column and index lists. -/
def tableFrame (t t2 : Table) : Prop :=
  t2.Name = t.Name ∧ t2.SchemaName = t.SchemaName ∧ t2.PrimaryKey = t.PrimaryKey ∧
  t2.ForeignKeys = t.ForeignKeys ∧ t2.Constraints = t.Constraints ∧
  List.Forall₂ colFrame t.Columns t2.Columns ∧
  List.Forall₂ idxFrame t.Indexes t2.Indexes

end DialectP

namespace DiffP

/-!
### Association-list facts used to analyse the differ
-/

/-- The keys of a map representation are pairwise distinct. -/
def KeysNodup (l : List (Chars × α)) : Prop := (l.map Prod.fst).Nodup

theorem mlookup_isSome_of_mem {α : Type} {l : List (Chars × α)} {kv : Chars × α}
    (h : kv ∈ l) : (mlookup kv.1 l).isSome := by
  induction l with
  | nil => simp at h
  | cons hd tl ih =>
    rcases List.mem_cons.mp h with h | h
    · subst h; simp [mlookup]
    · by_cases hk : hd.1 = kv.1
      · simp [mlookup, hk]
      · simpa only [mlookup, hk, if_false] using ih h

theorem mlookup_eq_none_iff {α : Type} {l : List (Chars × α)} {k : Chars} :
    mlookup k l = none ↔ k ∉ l.map Prod.fst := by
  induction l with
  | nil => simp [mlookup]
  | cons hd tl ih =>
    simp only [mlookup, List.map_cons, List.mem_cons]
    by_cases hk : hd.1 = k
    · rw [if_pos hk]
      constructor
      · intro hn; exact absurd hn (Option.some_ne_none _)
      · intro hn; exact absurd (Or.inl hk.symm) hn
    · rw [if_neg hk, ih]
      constructor
      · rintro hn (he | hm)
        · exact hk he.symm
        · exact hn hm
      · intro hn hm
        exact hn (Or.inr hm)

theorem mapInsert_keysNodup {α : Type} {l : List (Chars × α)} (hnd : KeysNodup l)
    (k : Chars) (v : α) : KeysNodup (mapInsert l k v) := by
  unfold mapInsert
  split
  · have hkeys : (l.map (fun kv => if kv.1 = k then (k, v) else kv)).map Prod.fst =
        l.map Prod.fst := by
      rw [List.map_map]
      apply List.map_congr_left
      intro kv _
      by_cases hk : kv.1 = k
      · simp [hk]
      · simp [hk]
    unfold KeysNodup
    rw [hkeys]
    exact hnd
  · unfold KeysNodup
    rw [List.map_append]
    next hnone =>
      have hk : k ∉ l.map Prod.fst :=
        mlookup_eq_none_iff.mp (Option.not_isSome_iff_eq_none.mp hnone)
      simp only [List.map_cons, List.map_nil]
      rw [List.nodup_append]
      refine ⟨hnd, by simp, ?_⟩
      intro a ha hb
      rw [List.mem_singleton] at hb
      exact hk (hb ▸ ha)

theorem buildMap_keysNodup {α : Type} (key : α → Chars) (xs : List α) :
    KeysNodup (buildMap key xs) := by
  suffices h : ∀ acc : List (Chars × α), KeysNodup acc →
      KeysNodup (xs.foldl (fun acc x => mapInsert acc (key x) x) acc) by
    exact h [] (by simp [KeysNodup])
  induction xs with
  | nil => intro acc hacc; exact hacc
  | cons x rest ih =>
    intro acc hacc
    exact ih _ (mapInsert_keysNodup hacc (key x) x)

theorem mlookup_eq_of_mem {α : Type} {l : List (Chars × α)} (hnd : KeysNodup l)
    {kv : Chars × α} (h : kv ∈ l) : mlookup kv.1 l = some kv.2 := by
  induction l with
  | nil => simp at h
  | cons hd tl ih =>
    have hnd2 : KeysNodup tl := (List.nodup_cons.mp hnd).2
    rcases List.mem_cons.mp h with h | h
    · subst h; simp [mlookup]
    · have hne : hd.1 ≠ kv.1 := by
        intro he
        exact (List.nodup_cons.mp hnd).1 (he ▸ List.mem_map_of_mem Prod.fst h)
      simpa only [mlookup, hne, if_false] using ih hnd2 h

theorem addedOf_self {α : Type} (m : List (Chars × α)) : addedOf m m = [] := by
  rw [addedOf, List.filterMap_eq_nil_iff]
  intro kv hkv
  simp [mlookup_isSome_of_mem hkv]

theorem modified_self_eq_nil {α β : Type} (m : List (Chars × α)) (hnd : KeysNodup m)
    (f : (Chars × α) → α → Option β) (hf : ∀ kv : Chars × α, f kv kv.2 = none) :
    m.filterMap (fun kv => (mlookup kv.1 m).bind (fun a => f kv a)) = [] := by
  rw [List.filterMap_eq_nil_iff]
  intro kv hkv
  rw [mlookup_eq_of_mem hnd hkv]
  simpa using hf kv

theorem equalFold_refl (a : Chars) : equalFold a a = true := by
  simp [equalFold]

theorem sameDefault_refl (d : Option Chars) : sameDefault d d = true := by
  cases d with
  | none => rfl
  | some a => simp [sameDefault, equalFold_refl]

theorem samePrimaryKey_refl (o : Option PrimaryKey) : samePrimaryKey o o = true := by
  cases o with
  | none => rfl
  | some pk => simp [samePrimaryKey]

theorem compareColumn_self (c : Column) : compareColumn c c = none := by
  simp [compareColumn, equalFold_refl, sameDefault_refl]

theorem compareTable_self (t : Table) : compareTable t t = none := by
  have hc : ∀ kv : Chars × Column, compareColumn kv.2 kv.2 = none :=
    fun kv => compareColumn_self kv.2
  simp only [compareTable, removedOf, addedOf_self,
    modified_self_eq_nil _ (buildMap_keysNodup Column.Name t.Columns)
      (fun kv tc => compareColumn kv.2 tc) hc,
    samePrimaryKey_refl]
  simp

theorem Compare_self_isEmpty (S : Schema) : (Compare S S).IsEmpty = true := by
  have ht : ∀ kv : Chars × Table, compareTable kv.2 kv.2 = none :=
    fun kv => compareTable_self kv.2
  have hv : ∀ kv : Chars × View,
      (if normalizeSQL kv.2.Definition ≠ normalizeSQL kv.2.Definition then
        some { Name := kv.1, OldDefinition := kv.2.Definition,
               NewDefinition := kv.2.Definition : ViewChanges }
      else none) = none := by
    intro kv; simp
  simp only [Compare, Changes.IsEmpty, removedOf, addedOf_self,
    modified_self_eq_nil _ (buildMap_keysNodup Table.Name S.Tables)
      (fun kv tt => compareTable kv.2 tt) ht,
    modified_self_eq_nil _ (buildMap_keysNodup View.Name S.Views)
      (fun kv tv =>
        if normalizeSQL kv.2.Definition ≠ normalizeSQL tv.Definition then
          some { Name := kv.1, OldDefinition := kv.2.Definition,
                 NewDefinition := tv.Definition : ViewChanges }
        else none) hv,
    List.isEmpty_nil, Bool.and_self]

end DiffP

/-!
### Facts about the statement splitter and the parser's dispatch loop
-/

namespace SchemaP

theorem foldl_splitStep_plain (cs : Chars) (stmts : List Chars) (cur : Chars) (sc : Char)
    (h : ∀ c ∈ cs, c ≠ ';' ∧ c ≠ squote ∧ c ≠ dquote) :
    cs.foldl splitStep (stmts, cur, false, sc) = (stmts, cur ++ cs, false, sc) := by
  induction cs generalizing cur with
  | nil => simp
  | cons c rest ih =>
    have hc := h c (List.mem_cons_self c rest)
    have hstep : splitStep (stmts, cur, false, sc) c = (stmts, cur ++ [c], false, sc) := by
      simp [splitStep, hc.1, hc.2.1, hc.2.2]
    rw [List.foldl_cons, hstep, ih (cur ++ [c]) (fun d hd => h d (List.mem_cons_of_mem _ hd))]
    simp

theorem foldl_splitStep_inString (cs : Chars) (stmts : List Chars) (cur : Chars)
    (h : ∀ c ∈ cs, c ≠ squote) :
    cs.foldl splitStep (stmts, cur, true, squote) = (stmts, cur ++ cs, true, squote) := by
  induction cs generalizing cur with
  | nil => simp
  | cons c rest ih =>
    have hc := h c (List.mem_cons_self c rest)
    have hstep : splitStep (stmts, cur, true, squote) c = (stmts, cur ++ [c], true, squote) := by
      by_cases hsemi : c = ';'
      · subst hsemi; simp [splitStep, hc]
      · simp [splitStep, hc, hsemi]
    rw [List.foldl_cons, hstep, ih (cur ++ [c]) (fun d hd => h d (List.mem_cons_of_mem _ hd))]
    simp

theorem splitStep_openQuote (stmts : List Chars) (cur : Chars) (sc : Char) :
    splitStep (stmts, cur, false, sc) squote = (stmts, cur ++ [squote], true, squote) := by
  simp [splitStep, squote]

theorem splitStep_closeQuote (stmts : List Chars) (cur : Chars) :
    splitStep (stmts, cur, true, squote) squote = (stmts, cur ++ [squote], false, squote) := by
  simp [splitStep, squote]

theorem parseCreateTable_isSome (stmt : Chars) (h : tableParenPanic stmt = false) :
    (parseCreateTable stmt).isSome := by
  unfold tableParenPanic at h
  unfold parseCreateTable
  rcases h1 : idxOfChar '(' stmt with _ | ps <;>
    rcases h2 : lastIdxOfChar ')' stmt with _ | pe <;>
      simp only [h1, h2] at h ⊢
  · simp
  · simp
  · simp
  · rw [if_neg (by simpa using h)]
    simp

theorem parseStep_unrecognized (acc : Schema) (stmt : Chars)
    (ht : isCreateTableStmt stmt = false) (hi : isCreateIndexStmt stmt = false)
    (hv : isCreateViewStmt stmt = false) : parseStep acc stmt = some acc := by
  unfold isCreateTableStmt at ht
  unfold isCreateIndexStmt at hi
  unfold isCreateViewStmt at hv
  rw [Bool.or_eq_false_iff] at hi hv
  simp only [parseStep, ht, hi.1, hi.2, hv.1, hv.2, Bool.false_eq_true, if_false,
    Bool.or_self]
  split <;> rfl

theorem parseStep_table_appends (acc : Schema) (stmt : Chars) (sch : Schema)
    (ht : isCreateTableStmt stmt = true) (h : parseStep acc stmt = some sch) :
    sch.Tables.length = acc.Tables.length + 1 := by
  unfold isCreateTableStmt at ht
  have hne : (trimSpace stmt).isEmpty = false := by
    cases he : (trimSpace stmt).isEmpty
    · rfl
    · rw [List.isEmpty_iff] at he
      rw [he] at ht
      exact absurd ht (by decide)
  rw [parseStep] at h
  simp only [hne, Bool.false_eq_true, if_false, ht, if_true] at h
  rcases Option.map_eq_some'.mp h with ⟨t, _, hsch⟩
  subst hsch
  simp

theorem parseStep_isSome (acc : Schema) (stmt : Chars) (h : stmtSafe stmt = true) :
    (parseStep acc stmt).isSome := by
  unfold stmtSafe at h
  unfold parseStep
  by_cases he : (trimSpace stmt).isEmpty
  · simp [he]
  · by_cases ht : isCreateTableStmt stmt
    · have hp : tableParenPanic (trimSpace stmt) = false := by
        rw [ht] at h
        simpa using h
      unfold isCreateTableStmt at ht
      simp only [he, if_false, ht, if_true, Bool.false_eq_true]
      rw [Option.isSome_map']
      exact parseCreateTable_isSome (trimSpace stmt) hp
    · unfold isCreateTableStmt at ht
      rw [Bool.not_eq_true] at ht
      simp only [he, if_false, ht, Bool.false_eq_true]
      split
      · simp
      · split
        · simp
        · simp

theorem parseAll_isSome (stmts : List Chars) (acc : Schema)
    (h : ∀ s ∈ stmts, stmtSafe s = true) : (parseAll stmts acc).isSome := by
  induction stmts generalizing acc with
  | nil => simp [parseAll]
  | cons s rest ih =>
    have hs := parseStep_isSome acc s (h s (List.mem_cons_self s rest))
    rcases Option.isSome_iff_exists.mp hs with ⟨sch, hsch⟩
    rw [parseAll, hsch]
    exact ih sch (fun d hd => h d (List.mem_cons_of_mem _ hd))

end SchemaP

/-!
### Facts about the transformer: identity and frame conditions
-/

namespace DialectP

theorem transformColumn_id (tgt : Chars) (c : Column) (tn : Chars)
    (hty : transformType tgt c.DataType c.IsIdentity tn c.Name = (c.DataType, []))
    (hdef : ∀ d, c.Default = some d → transformDefault tgt d = d) :
    transformColumn tgt c tn = (c, []) := by
  unfold transformColumn
  rw [hty]
  have hd : c.Default.map (transformDefault tgt) = c.Default := by
    cases hc : c.Default with
    | none => rfl
    | some d => simp [hdef d hc]
  rw [hd]

theorem transformIndex_id (tgt : Chars) (idx : Index)
    (h : mapIndexType tgt idx.IdxType = idx.IdxType) : transformIndex tgt idx = idx := by
  unfold transformIndex
  rw [h]

theorem transformTable_id (tgt : Chars) (t : Table)
    (hcols : ∀ c ∈ t.Columns, transformColumn tgt c t.Name = (c, []))
    (hidx : ∀ idx ∈ t.Indexes, transformIndex tgt idx = idx) :
    transformTable tgt t = (t, []) := by
  unfold transformTable
  rw [List.map_congr_left hcols, List.map_congr_left hidx]
  simp [List.map_map, List.flatten_eq_nil_iff, Function.comp_def]

theorem transformView_same_dialect (d : Chars) (v : View) :
    transformView d d v = (v, []) := by
  unfold transformView
  simp

/-- Pointwise identity of the three per-entity transformations makes
`Transform` the identity with no warnings. -/
theorem Transform_id (d : Chars) (S : Schema)
    (htab : ∀ t ∈ S.Tables, transformTable d t = (t, []))
    (hidx : ∀ idx ∈ S.Indexes, transformIndex d idx = idx) :
    Transform d d S = (S, []) := by
  unfold Transform
  rw [List.map_congr_left htab, List.map_congr_left hidx]
  rw [List.map_congr_left (fun v _ => transformView_same_dialect d v)]
  simp [List.map_map, List.flatten_eq_nil_iff, Function.comp_def]

theorem colFrame_transformColumn (tgt : Chars) (c : Column) (tn : Chars) :
    colFrame c (transformColumn tgt c tn).1 :=
  ⟨rfl, rfl, rfl, rfl, rfl, rfl⟩

theorem idxFrame_transformIndex (tgt : Chars) (i : Index) :
    idxFrame i (transformIndex tgt i) :=
  ⟨rfl, rfl, rfl, rfl, rfl, rfl⟩

theorem tableFrame_transformTable (tgt : Chars) (t : Table) :
    tableFrame t (transformTable tgt t).1 := by
  refine ⟨rfl, rfl, rfl, rfl, rfl, ?_, ?_⟩
  · show List.Forall₂ colFrame t.Columns
      ((t.Columns.map (fun c => transformColumn tgt c t.Name)).map Prod.fst)
    rw [List.map_map]
    rw [List.forall₂_map_right_iff]
    rw [List.forall₂_same]
    intro c _
    exact colFrame_transformColumn tgt c t.Name
  · show List.Forall₂ idxFrame t.Indexes (t.Indexes.map (transformIndex tgt))
    rw [List.forall₂_map_right_iff, List.forall₂_same]
    intro i _
    exact idxFrame_transformIndex tgt i

end DialectP

/-!
### Facts about column-list splitting and column parsing
-/

namespace SchemaP

theorem splitOnChar_ne_nil (sep : Char) (s : Chars) : splitOnChar sep s ≠ [] := by
  cases s with
  | nil => simp [splitOnChar]
  | cons c rest =>
    unfold splitOnChar
    by_cases hc : c = sep
    · simp [hc]
    · simp only [hc, if_false]
      cases h : splitOnChar sep rest <;> simp

theorem splitOnChar_length (sep : Char) (s : Chars) :
    (splitOnChar sep s).length = countChar sep s + 1 := by
  induction s with
  | nil => simp [splitOnChar, countChar]
  | cons c rest ih =>
    unfold splitOnChar
    by_cases hc : c = sep
    · rw [if_pos hc]
      have hcount : countChar sep (c :: rest) = countChar sep rest + 1 := by
        simp [countChar, List.filter_cons, hc]
      rw [hcount, List.length_cons, ih]
    · rw [if_neg hc]
      have hcount : countChar sep (c :: rest) = countChar sep rest := by
        simp [countChar, List.filter_cons, hc]
      rcases hsp : splitOnChar sep rest with _ | ⟨piece, more⟩
      · exact absurd hsp (splitOnChar_ne_nil sep rest)
      · rw [hsp] at ih
        rw [hcount]
        show ((c :: piece) :: more).length = countChar sep rest + 1
        simpa using ih

theorem parseColList_length (cs : Chars) :
    (parseColList cs).length = countChar ',' cs + 1 := by
  unfold parseColList
  rw [List.length_map, splitOnChar_length]

end SchemaP

/-!
## Claim theorems
-/

/-- C1 (counterexample): parsing `CREATE TABLE users` — a recognized
CREATE TABLE statement with no parenthesized body — does NOT skip the
statement: it contributes a (column-less) Table to the Schema, refuting
the claim that such a statement contributes no Table. -/
theorem C1_counterexample :
    SchemaP.Parse c1ctInput = some c1ctSchema ∧ c1ctSchema.Tables ≠ [] := by
  constructor
  · decide
  · decide

/-- C1 (amended): `Parse` returns a Schema with a nil error for every
input in which no CREATE TABLE statement has its last `)` before its
first `(` (on such a statement the Go body slice panics); a statement
whose leading keyword is not CREATE TABLE / CREATE [UNIQUE] INDEX /
CREATE [OR REPLACE] VIEW contributes nothing; and a recognized CREATE
TABLE statement is never skipped — it always appends exactly one
best-effort Table. -/
theorem C1_prop :
    (∀ acc stmt, SchemaP.isCreateTableStmt stmt = false →
        SchemaP.isCreateIndexStmt stmt = false → SchemaP.isCreateViewStmt stmt = false →
        SchemaP.parseStep acc stmt = some acc) ∧
    (∀ acc stmt sch, SchemaP.isCreateTableStmt stmt = true →
        SchemaP.parseStep acc stmt = some sch →
        sch.Tables.length = acc.Tables.length + 1) ∧
    (∀ sql, (∀ stmt ∈ SchemaP.splitStatements (SchemaP.normalizeSQL sql),
        SchemaP.stmtSafe stmt = true) → (SchemaP.Parse sql).isSome) :=
  ⟨SchemaP.parseStep_unrecognized,
   SchemaP.parseStep_table_appends,
   fun _ h => SchemaP.parseAll_isSome _ emptySchema h⟩

/-- C1 (witness): the amended statement instantiated — an unrecognized
`DROP TABLE` statement contributes nothing, a well-formed CREATE TABLE
appends one table, and a document of safe statements parses to `some`. -/
theorem C1_witness :
    SchemaP.parseStep emptySchema "DROP TABLE x".data = some emptySchema ∧
    c1okSchema.Tables.length = emptySchema.Tables.length + 1 ∧
    (SchemaP.Parse c1okInput).isSome :=
  ⟨C1_prop.1 emptySchema "DROP TABLE x".data (by decide) (by decide) (by decide),
   C1_prop.2.1 emptySchema c1okInput c1okSchema (by decide) (by decide),
   C1_prop.2.2 c1okInput (by decide)⟩

/-- C2 (counterexample): transforming a schema from mysql to mysql is not
the identity with no warnings — a `UUID` column is rewritten to
`CHAR(36)` and a data-loss warning is emitted. -/
theorem C2_counterexample :
    DialectP.Transform "mysql".data "mysql".data c2badSchema ≠ (c2badSchema, []) := by
  decide

/-- C2 (amended): `transform(S, D, D)` returns S unchanged with no
warnings exactly on schemas whose column types, default expressions and
index methods are already fixed points of the per-dialect maps and whose
columns trigger no data-loss warning; in general the same-dialect
transform may rewrite types to the dialect's canonical spelling and emit
data-loss warnings. -/
theorem C2_prop (d : Chars) (S : Schema)
    (h1 : ∀ t ∈ S.Tables, ∀ c ∈ t.Columns,
        DialectP.transformType d c.DataType c.IsIdentity t.Name c.Name = (c.DataType, []))
    (h2 : ∀ t ∈ S.Tables, ∀ c ∈ t.Columns, ∀ x, c.Default = some x →
        DialectP.transformDefault d x = x)
    (h3 : ∀ t ∈ S.Tables, ∀ idx ∈ t.Indexes,
        DialectP.mapIndexType d idx.IdxType = idx.IdxType)
    (h4 : ∀ idx ∈ S.Indexes, DialectP.mapIndexType d idx.IdxType = idx.IdxType) :
    DialectP.Transform d d S = (S, []) :=
  DialectP.Transform_id d S
    (fun t ht => DialectP.transformTable_id d t
      (fun c hc => DialectP.transformColumn_id d c t.Name (h1 t ht c hc)
        (fun x hx => h2 t ht c hc x hx))
      (fun idx hi => DialectP.transformIndex_id d idx (h3 t ht idx hi)))
    (fun idx hi => DialectP.transformIndex_id d idx (h4 idx hi))

/-- C2 (witness): a postgres schema whose column type `TEXT`, default
`NOW()` and empty index methods are all fixed points transforms to
itself with no warnings. -/
theorem C2_witness :
    DialectP.Transform "postgres".data "postgres".data c2goodSchema = (c2goodSchema, []) :=
  C2_prop "postgres".data c2goodSchema (by decide) (by decide) (by decide) (by decide)

/-- C3 (counterexample): transforming to the unknown target dialect
`oracle` does not fail with an "unsupported dialect" error — `Transform`
has no error result at all; it silently passes every type through in
normalized spelling (here `INT` becomes `INTEGER`) and emits no warning,
even though `IsSupported "oracle"` is false. -/
theorem C3_counterexample :
    DialectP.IsSupported "oracle".data = false ∧
    DialectP.Transform "postgres".data "oracle".data c3schema = (c3outSchema, []) := by
  constructor
  · decide
  · decide

/-- C3 (amended): the transformer performs no target-dialect validation:
for any target name outside {postgres, mysql, sqlserver} (equivalently,
any name `IsSupported` rejects), `toTargetType` and `mapIdentityType`
pass their argument through unchanged; dialect validity is only
available to callers as the separate `IsSupported` predicate. -/
theorem C3_prop (tgt : Chars) (h : DialectP.IsSupported tgt = false) :
    (∀ s, DialectP.toTargetType tgt s = s) ∧
    (∀ s, DialectP.mapIdentityType tgt s = s) := by
  have h3 : tgt ≠ "postgres".data ∧ tgt ≠ "mysql".data ∧ tgt ≠ "sqlserver".data := by
    unfold DialectP.IsSupported DialectP.SupportedDialects at h
    simp only [List.any_cons, List.any_nil, Bool.or_eq_false_iff, decide_eq_false_iff_not] at h
    exact ⟨fun he => h.1 he.symm, fun he => h.2.1 he.symm, fun he => h.2.2.1 he.symm⟩
  have e1 : (tgt = "postgres".data) = False := eq_false h3.1
  have e2 : (tgt = "mysql".data) = False := eq_false h3.2.1
  have e3 : (tgt = "sqlserver".data) = False := eq_false h3.2.2
  constructor
  · intro s
    simp only [DialectP.toTargetType, e1, e2, e3, if_false]
  · intro s
    simp only [DialectP.mapIdentityType, e1, e2, e3, if_false]

/-- C3 (witness): the amended statement at the concrete unsupported
target `oracle`. -/
theorem C3_witness :
    DialectP.toTargetType "oracle".data "FOO".data = "FOO".data ∧
    DialectP.mapIdentityType "oracle".data "BIGSERIAL".data = "BIGSERIAL".data :=
  ⟨(C3_prop "oracle".data (by decide)).1 "FOO".data,
   (C3_prop "oracle".data (by decide)).2 "BIGSERIAL".data⟩

/-- C4: diffing any schema against itself yields a Changes value whose
IsEmpty is true — no added/removed/modified tables, columns, indexes,
foreign keys, views, and no primary-key change. -/
theorem C4_prop (S : Schema) : (DiffP.Compare S S).IsEmpty = true :=
  DiffP.Compare_self_isEmpty S

/-- C5 (counterexample): parsing the scenario-1 statement does not give
the table a PrimaryKey of `[id]` — the inline `PRIMARY KEY` modifier only
sets the column flag, and the table's PrimaryKey field stays nil. -/
theorem C5_counterexample :
    ¬ ∃ pk : PrimaryKey, firstTablePK (SchemaP.Parse c5input) = some (some pk) ∧
        pk.Columns = ["id".data] := by
  rintro ⟨pk, h, -⟩
  rw [(by decide : firstTablePK (SchemaP.Parse c5input) = some none)] at h
  exact Option.noConfusion (Option.some.inj h)

/-- C5 (amended): parsing
`CREATE TABLE users (id SERIAL PRIMARY KEY, email VARCHAR(255) NOT NULL UNIQUE)`
yields one Table named users with exactly two Columns; the table's
PrimaryKey field is nil, with the primary key recorded only as
is_primary_key = true on column id; column email has is_unique = true and
nullable = false. -/
theorem C5_prop : SchemaP.Parse c5input = some c5schema := by
  decide

/-- C6 (counterexample): in `CREATE TABLE t (id INT, PRIMARY KEY (id))`
the column id is named in the table-level PRIMARY KEY constraint, yet its
nullable flag remains true — refuting "nullable is false exactly when …
part of the table's primary key including a table-level PRIMARY KEY (...)
member". -/
theorem C6_counterexample :
    SchemaP.Parse c6input = some c6schema ∧ c6table.PrimaryKey = some c6pk ∧
    c6col.Name ∈ c6pk.Columns ∧ c6col.Nullable = true := by
  refine ⟨by decide, by decide, by decide, by decide⟩

/-- C6 (amended): for a column produced by `parseColumnDef`, the nullable
flag is false exactly when the member's upper-cased text contains the
substring "NOT NULL" or the substring "PRIMARY KEY" (the inline forms);
a table-level PRIMARY KEY constraint does not affect the flag. -/
theorem C6_prop (defn : Chars) (c : Column)
    (h : SchemaP.parseColumnDef defn = some c) :
    (c.Nullable = false ↔ (containsSub (goUpper defn) "NOT NULL".data = true ∨
      containsSub (goUpper defn) "PRIMARY KEY".data = true)) := by
  simp only [SchemaP.parseColumnDef] at h
  split at h
  · exact absurd h (by simp)
  · rw [Option.some.injEq] at h
    subst h
    by_cases hpk : containsSub (goUpper defn) "PRIMARY KEY".data
    · simp [hpk]
    · by_cases hnn : containsSub (goUpper defn) "NOT NULL".data
      · simp [hpk, hnn]
      · simp [hpk, hnn]

/-- C6 (witness): the amended statement at the member `id INT NOT NULL`. -/
theorem C6_witness :
    (c6witnessCol.Nullable = false ↔
      (containsSub (goUpper c6witnessInput) "NOT NULL".data = true ∨
        containsSub (goUpper c6witnessInput) "PRIMARY KEY".data = true)) :=
  C6_prop c6witnessInput c6witnessCol (by decide)

/-- C7 (counterexample): projecting the canonical type TIMESTAMP_TZ to
the three dialects does not give mysql `TIMESTAMP` — the mysql projection
is `DATETIME`. -/
theorem C7_counterexample :
    ¬ (DialectP.toTargetType "postgres".data "TIMESTAMP_TZ".data =
         "TIMESTAMP WITH TIME ZONE".data ∧
       DialectP.toTargetType "mysql".data "TIMESTAMP_TZ".data = "TIMESTAMP".data ∧
       DialectP.toTargetType "sqlserver".data "TIMESTAMP_TZ".data = "DATETIMEOFFSET".data) := by
  decide

/-- C7 (amended): TIMESTAMP_TZ projects to "TIMESTAMP WITH TIME ZONE"
for postgres, DATETIME (not TIMESTAMP) for mysql, and DATETIMEOFFSET for
sqlserver. -/
theorem C7_prop :
    DialectP.toTargetType "postgres".data "TIMESTAMP_TZ".data =
      "TIMESTAMP WITH TIME ZONE".data ∧
    DialectP.toTargetType "mysql".data "TIMESTAMP_TZ".data = "DATETIME".data ∧
    DialectP.toTargetType "sqlserver".data "TIMESTAMP_TZ".data = "DATETIMEOFFSET".data := by
  refine ⟨by decide, by decide, by decide⟩

/-- C8 (counterexample): a FOREIGN KEY member without a REFERENCES clause
parses into a ForeignKey with one local column and zero referenced
columns — the local and referenced lists are not of equal length. -/
theorem C8_counterexample :
    SchemaP.Parse c8input = some c8schema ∧ c8fk ∈ c8table.ForeignKeys ∧
    c8fk.Columns.length = 1 ∧ c8fk.ReferencedCols.length = 0 := by
  refine ⟨by decide, by decide, by decide, by decide⟩

/-- C8 (amended): the parser does not enforce equal arity.  Each of the
two column lists is filled from its own regex match with no cross-check:
a member on which the FOREIGN KEY pattern fails to match gets an empty
local list, a member whose REFERENCES clause fails to match gets empty
referenced-table and referenced-column fields whatever the local list
(so `FOREIGN KEY (a)` with no REFERENCES has lengths 1 vs 0), and when
both patterns do match and the two parenthesized lists carry the same
number of commas the lengths are equal. -/
theorem C8_prop :
    (∀ defn, findSubmatch SchemaP.localColsRe 1 defn = none →
        (SchemaP.parseForeignKeyConstraint defn).Columns = []) ∧
    (∀ defn, findSubmatch SchemaP.refRe 3 defn = none →
        (SchemaP.parseForeignKeyConstraint defn).ReferencedCols = [] ∧
        (SchemaP.parseForeignKeyConstraint defn).ReferencedTable = []) ∧
    (∀ defn msL msR, findSubmatch SchemaP.localColsRe 1 defn = some msL →
        findSubmatch SchemaP.refRe 3 defn = some msR →
        countChar ',' (msL.getD 1 []) = countChar ',' (msR.getD 3 []) →
        (SchemaP.parseForeignKeyConstraint defn).Columns.length =
          (SchemaP.parseForeignKeyConstraint defn).ReferencedCols.length) := by
  refine ⟨?_, ?_, ?_⟩
  · intro defn h
    simp [SchemaP.parseForeignKeyConstraint, h]
  · intro defn h
    refine ⟨?_, ?_⟩ <;> simp [SchemaP.parseForeignKeyConstraint, h]
  · intro defn msL msR hL hR hc
    simp only [SchemaP.parseForeignKeyConstraint, hL, hR]
    rw [SchemaP.parseColList_length, SchemaP.parseColList_length, hc]

/-- C8 (witness): the amended statement at a bare FOREIGN KEY member (no
parenthesized list at all: both lists empty), at a REFERENCES-less
member, and at a fully-formed two-column foreign key. -/
theorem C8_witness :
    (SchemaP.parseForeignKeyConstraint "FOREIGN KEY".data).Columns = [] ∧
    ((SchemaP.parseForeignKeyConstraint "FOREIGN KEY (x)".data).ReferencedCols = [] ∧
     (SchemaP.parseForeignKeyConstraint "FOREIGN KEY (x)".data).ReferencedTable = []) ∧
    (SchemaP.parseForeignKeyConstraint
        "FOREIGN KEY (a, b) REFERENCES t (x, y)".data).Columns.length =
      (SchemaP.parseForeignKeyConstraint
        "FOREIGN KEY (a, b) REFERENCES t (x, y)".data).ReferencedCols.length :=
  ⟨C8_prop.1 "FOREIGN KEY".data (by decide),
   C8_prop.2.1 "FOREIGN KEY (x)".data (by decide),
   C8_prop.2.2 "FOREIGN KEY (a, b) REFERENCES t (x, y)".data
     ["FOREIGN KEY (a, b)".data, "a, b".data]
     ["REFERENCES t (x, y)".data, [], "t".data, "x, y".data]
     (by decide) (by decide) (by decide)⟩

/-- C9: the statement splitter never treats a semicolon inside a single-
quoted literal as a boundary: for any text `x` free of separators and
quotes followed by a quoted literal containing a semicolon, the whole
text is emitted as one statement. -/
theorem C9_prop (x y z : Chars)
    (hx : ∀ c ∈ x, c ≠ ';' ∧ c ≠ squote ∧ c ≠ dquote)
    (hy : ∀ c ∈ y, c ≠ squote) (hz : ∀ c ∈ z, c ≠ squote) :
    SchemaP.splitStatements (x ++ [squote] ++ y ++ [';'] ++ z ++ [squote]) =
      [x ++ [squote] ++ y ++ [';'] ++ z ++ [squote]] := by
  unfold SchemaP.splitStatements
  simp only [List.foldl_append, List.foldl_cons, List.foldl_nil]
  rw [SchemaP.foldl_splitStep_plain x [] [] (Char.ofNat 0) hx]
  rw [SchemaP.splitStep_openQuote]
  rw [SchemaP.foldl_splitStep_inString y [] (([] ++ x) ++ [squote]) hy]
  rw [show SchemaP.splitStep ([], ([] ++ x) ++ [squote] ++ y, true, squote) ';' =
      ([], (([] ++ x) ++ [squote] ++ y) ++ [';'], true, squote) by
    simp [SchemaP.splitStep, squote]]
  rw [SchemaP.foldl_splitStep_inString z [] ((([] ++ x) ++ [squote] ++ y) ++ [';']) hz]
  rw [SchemaP.splitStep_closeQuote]
  simp [List.append_assoc]

/-- C9 (witness): the quoted semicolon in `'a;b'` does not split the
statement. -/
theorem C9_witness :
    SchemaP.splitStatements ("INSERT INTO t VALUES (".data ++ [squote] ++ "a".data ++
        [';'] ++ "b".data ++ [squote]) =
      ["INSERT INTO t VALUES (".data ++ [squote] ++ "a".data ++ [';'] ++ "b".data ++
        [squote]] :=
  C9_prop "INSERT INTO t VALUES (".data "a".data "b".data
    (by decide) (by decide) (by decide)

/-- C10: for every source/target dialect pair (any strings) and schema,
`Transform` preserves the number of tables, standalone indexes and views;
carries every view through byte-identically; preserves each table's name,
namespace, primary key, foreign keys and constraints; preserves each
column's name, nullable flag, is-primary-key/is-unique/is-identity flags
and comment; and preserves each index's name, table, namespace, column
list and unique/primary flags — only a column's type, a column's default
and an index's method can change. -/
theorem C10_prop (fr tgt : Chars) (S : Schema) :
    (DialectP.Transform fr tgt S).1.Tables.length = S.Tables.length ∧
    (DialectP.Transform fr tgt S).1.Indexes.length = S.Indexes.length ∧
    (DialectP.Transform fr tgt S).1.Views = S.Views ∧
    List.Forall₂ DialectP.tableFrame S.Tables (DialectP.Transform fr tgt S).1.Tables ∧
    List.Forall₂ DialectP.idxFrame S.Indexes (DialectP.Transform fr tgt S).1.Indexes := by
  refine ⟨?_, ?_, ?_, ?_, ?_⟩
  · simp [DialectP.Transform]
  · simp [DialectP.Transform]
  · show (S.Views.map (DialectP.transformView fr tgt)).map Prod.fst = S.Views
    rw [List.map_map]
    have h : ∀ v ∈ S.Views, (Prod.fst ∘ DialectP.transformView fr tgt) v = id v :=
      fun v _ => rfl
    rw [List.map_congr_left h, List.map_id]
  · show List.Forall₂ DialectP.tableFrame S.Tables
      ((S.Tables.map (DialectP.transformTable tgt)).map Prod.fst)
    rw [List.map_map, List.forall₂_map_right_iff, List.forall₂_same]
    intro t _
    exact DialectP.tableFrame_transformTable tgt t
  · show List.Forall₂ DialectP.idxFrame S.Indexes
      (S.Indexes.map (DialectP.transformIndex tgt))
    rw [List.forall₂_map_right_iff, List.forall₂_same]
    intro i _
    exact DialectP.idxFrame_transformIndex tgt i

end Migrate
